import Mathlib

/-!
Shallow embedding of the invoice-extraction logic in src/app.py (and the
identical flattening logic in src/keep.py): JSON-like values, the row
flattener, the batch orchestrator, the aggregate statistics, and the
upload filter.
-/

/-- A JSON value as produced by json.loads on the extraction service's
response.  Numbers are modelled as rationals. -/
inductive JValue where
  | jnull : JValue
  | jbool : Bool → JValue
  | jnum : ℚ → JValue
  | jstr : String → JValue
  | jarr : List JValue → JValue
  | jobj : List (String × JValue) → JValue

mutual

/-- Decidable equality for JValue (the deriving handler does not support
this nested inductive). -/
def JValue.decEq : (a b : JValue) → Decidable (a = b)
  | .jnull, .jnull => isTrue rfl
  | .jnull, .jbool _ => isFalse (fun h => nomatch h)
  | .jnull, .jnum _ => isFalse (fun h => nomatch h)
  | .jnull, .jstr _ => isFalse (fun h => nomatch h)
  | .jnull, .jarr _ => isFalse (fun h => nomatch h)
  | .jnull, .jobj _ => isFalse (fun h => nomatch h)
  | .jbool _, .jnull => isFalse (fun h => nomatch h)
  | .jbool a, .jbool b =>
      match instDecidableEqBool a b with
      | isTrue h => isTrue (h ▸ rfl)
      | isFalse h => isFalse (fun he => h (by injection he))
  | .jbool _, .jnum _ => isFalse (fun h => nomatch h)
  | .jbool _, .jstr _ => isFalse (fun h => nomatch h)
  | .jbool _, .jarr _ => isFalse (fun h => nomatch h)
  | .jbool _, .jobj _ => isFalse (fun h => nomatch h)
  | .jnum _, .jnull => isFalse (fun h => nomatch h)
  | .jnum _, .jbool _ => isFalse (fun h => nomatch h)
  | .jnum a, .jnum b =>
      match (inferInstance : DecidableEq ℚ) a b with
      | isTrue h => isTrue (h ▸ rfl)
      | isFalse h => isFalse (fun he => h (by injection he))
  | .jnum _, .jstr _ => isFalse (fun h => nomatch h)
  | .jnum _, .jarr _ => isFalse (fun h => nomatch h)
  | .jnum _, .jobj _ => isFalse (fun h => nomatch h)
  | .jstr _, .jnull => isFalse (fun h => nomatch h)
  | .jstr _, .jbool _ => isFalse (fun h => nomatch h)
  | .jstr _, .jnum _ => isFalse (fun h => nomatch h)
  | .jstr a, .jstr b =>
      match instDecidableEqString a b with
      | isTrue h => isTrue (h ▸ rfl)
      | isFalse h => isFalse (fun he => h (by injection he))
  | .jstr _, .jarr _ => isFalse (fun h => nomatch h)
  | .jstr _, .jobj _ => isFalse (fun h => nomatch h)
  | .jarr _, .jnull => isFalse (fun h => nomatch h)
  | .jarr _, .jbool _ => isFalse (fun h => nomatch h)
  | .jarr _, .jnum _ => isFalse (fun h => nomatch h)
  | .jarr _, .jstr _ => isFalse (fun h => nomatch h)
  | .jarr a, .jarr b =>
      match JValue.decEqList a b with
      | isTrue h => isTrue (h ▸ rfl)
      | isFalse h => isFalse (fun he => h (by injection he))
  | .jarr _, .jobj _ => isFalse (fun h => nomatch h)
  | .jobj _, .jnull => isFalse (fun h => nomatch h)
  | .jobj _, .jbool _ => isFalse (fun h => nomatch h)
  | .jobj _, .jnum _ => isFalse (fun h => nomatch h)
  | .jobj _, .jstr _ => isFalse (fun h => nomatch h)
  | .jobj _, .jarr _ => isFalse (fun h => nomatch h)
  | .jobj a, .jobj b =>
      match JValue.decEqObj a b with
      | isTrue h => isTrue (h ▸ rfl)
      | isFalse h => isFalse (fun he => h (by injection he))

/-- Decidable equality for lists of JValue. -/
def JValue.decEqList : (xs ys : List JValue) → Decidable (xs = ys)
  | [], [] => isTrue rfl
  | [], _ :: _ => isFalse (fun h => nomatch h)
  | _ :: _, [] => isFalse (fun h => nomatch h)
  | x :: xs, y :: ys =>
      match JValue.decEq x y with
      | isTrue h1 =>
          match JValue.decEqList xs ys with
          | isTrue h2 => isTrue (h1 ▸ h2 ▸ rfl)
          | isFalse h2 => isFalse (fun he => h2 (by injection he))
      | isFalse h1 => isFalse (fun he => h1 (by injection he))

/-- Decidable equality for key-value lists of JValue. -/
def JValue.decEqObj : (xs ys : List (String × JValue)) → Decidable (xs = ys)
  | [], [] => isTrue rfl
  | [], _ :: _ => isFalse (fun h => nomatch h)
  | _ :: _, [] => isFalse (fun h => nomatch h)
  | (k, v) :: xs, (k2, v2) :: ys =>
      match instDecidableEqString k k2 with
      | isTrue hk =>
          match JValue.decEq v v2 with
          | isTrue hv =>
              match JValue.decEqObj xs ys with
              | isTrue ht => isTrue (hk ▸ hv ▸ ht ▸ rfl)
              | isFalse ht => isFalse (fun he => ht (by injection he))
          | isFalse hv =>
              isFalse (fun he => hv (by
                simp only [List.cons.injEq, Prod.mk.injEq] at he
                exact he.1.2))
      | isFalse hk =>
          isFalse (fun he => hk (by
            simp only [List.cons.injEq, Prod.mk.injEq] at he
            exact he.1.1))

end

instance : DecidableEq JValue := JValue.decEq

instance {ε α : Type} [DecidableEq ε] [DecidableEq α] : DecidableEq (Except ε α) := fun a b =>
  match a, b with
  | .ok x, .ok y =>
      if h : x = y then isTrue (by rw [h]) else isFalse (fun he => h (by injection he))
  | .error x, .error y =>
      if h : x = y then isTrue (by rw [h]) else isFalse (fun he => h (by injection he))
  | .ok _, .error _ => isFalse (fun h => nomatch h)
  | .error _, .ok _ => isFalse (fun h => nomatch h)

/-- Python truthiness of a JSON value: None, False, 0, empty string, empty
list and empty dict are falsy, everything else is truthy. -/
def truthy : JValue → Bool
  | .jnull => false
  | .jbool b => b
  | .jnum q => decide (q ≠ 0)
  | .jstr s => decide (s ≠ "")
  | .jarr xs => decide (xs ≠ [])
  | .jobj kvs => decide (kvs ≠ [])

/-- Python dict.get(k, dflt): the stored value when the key is present
(even when that value is None), the default otherwise.  json.loads keeps
at most one binding per key, so lookup of the first binding is faithful. -/
def pyGet (kvs : List (String × JValue)) (k : String) (dflt : JValue) : JValue :=
  match kvs.lookup k with
  | some v => v
  | none => dflt

/-- One flat output row, with the 17 columns built by flatten_to_rows
(src/app.py lines 100-118). -/
structure Row where
  Invoice_Number : JValue
  Waybill_Number : JValue
  Customer_Name : JValue
  Order_Number : JValue
  Invoice_Date : JValue
  Line_No : JValue
  Item_Code : JValue
  Item_Description : JValue
  Quantity : JValue
  UOM : JValue
  Unit_Price : JValue
  Total_Amount : JValue
  Discount_Amount : JValue
  VAT : JValue
  Amount_Incl_VAT : JValue
  Batch_No : JValue
  Expiry_Date : JValue
deriving DecidableEq

/-- The row dict built for one line item (src/app.py lines 100-118): the
five header values passed in, the line-item fields read with item.get and
the defaults written in the source (note line_no defaults to the empty
string there, not to 0). -/
def mkRow (invoice_number waybill_number customer_name order_number invoice_date : JValue)
    (ikvs : List (String × JValue)) : Row where
  Invoice_Number := invoice_number
  Waybill_Number := waybill_number
  Customer_Name := customer_name
  Order_Number := order_number
  Invoice_Date := invoice_date
  Line_No := pyGet ikvs "line_no" (.jstr "")
  Item_Code := pyGet ikvs "item_code" (.jstr "")
  Item_Description := pyGet ikvs "item_description" (.jstr "")
  Quantity := pyGet ikvs "quantity" (.jnum 0)
  UOM := pyGet ikvs "uom" (.jstr "")
  Unit_Price := pyGet ikvs "unit_price" (.jnum 0)
  Total_Amount := pyGet ikvs "total_amount" (.jnum 0)
  Discount_Amount := pyGet ikvs "discount_amount" (.jnum 0)
  VAT := pyGet ikvs "vat" (.jnum 0)
  Amount_Incl_VAT := pyGet ikvs "amount_incl_vat" (.jnum 0)
  Batch_No := pyGet ikvs "batch_no" (.jstr "")
  Expiry_Date := pyGet ikvs "expiry_date" (.jstr "")

/-- Building the row for one element of line_items: item.get works only on
a dict; any other element raises AttributeError, which the caller's
try/except catches. -/
def itemToRow (invoice_number waybill_number customer_name order_number invoice_date : JValue) :
    JValue → Except String Row
  | .jobj ikvs =>
      .ok (mkRow invoice_number waybill_number customer_name order_number invoice_date ikvs)
  | _ => .error "AttributeError: item has no attribute get"

/-- The Python for-loop over line_items: iterating a list yields its
elements; iterating a nonempty string yields characters and a nonempty
dict yields keys, either of which makes item.get raise on the first
iteration; null, numbers and booleans are not iterable (TypeError). -/
def iterItems : JValue → Except String (List JValue)
  | .jarr xs => .ok xs
  | .jstr s => if s = "" then .ok [] else .error "AttributeError: item has no attribute get"
  | .jobj kvs => if kvs = [] then .ok [] else .error "AttributeError: item has no attribute get"
  | _ => .error "TypeError: object is not iterable"

/-- The loop body accumulation of flatten_to_rows: one row per line item,
in order, stopping with the exception if an item is not a dict. -/
def rowsOfItems (invoice_number waybill_number customer_name order_number invoice_date : JValue) :
    List JValue → Except String (List Row)
  | [] => .ok []
  | it :: rest =>
      match itemToRow invoice_number waybill_number customer_name order_number invoice_date it with
      | .ok r =>
          match rowsOfItems invoice_number waybill_number customer_name order_number invoice_date rest with
          | .ok rs => .ok (r :: rs)
          | .error e => .error e
      | .error e => .error e

/-- flatten_to_rows (src/app.py lines 87-121).  A falsy argument (None,
empty dict, ...) returns the empty list; a truthy dict reads the five
header fields once and emits one row per line item; a truthy non-dict
raises (it has no get method), modelled as Except.error. -/
def flatten_to_rows : Option JValue → Except String (List Row)
  | none => .ok []
  | some v =>
      if truthy v then
        match v with
        | .jobj kvs =>
            let invoice_number := pyGet kvs "invoice_number" (.jstr "")
            let waybill_number := pyGet kvs "waybill_number" (.jstr "")
            let customer_name := pyGet kvs "customer_name" (.jstr "")
            let order_number := pyGet kvs "order_number" (.jstr "")
            let invoice_date := pyGet kvs "invoice_date" (.jstr "")
            match iterItems (pyGet kvs "line_items" (.jarr [])) with
            | .ok items =>
                rowsOfItems invoice_number waybill_number customer_name order_number invoice_date items
            | .error e => .error e
        | _ => .error "AttributeError: invoice_data has no attribute get"
      else
        .ok []

/-- extract_invoice_data (src/app.py lines 32-82).  The service call and
JSON decoding pipeline is abstracted as its outcome: either the decoded
JSON value or an exception message.  The function catches every exception,
prints a diagnostic, and returns None; on success it returns the decoded
data.  The second component is the log output. -/
def extract_invoice_data : Except String JValue → Option JValue × List String
  | .error e => (none, ["Error: " ++ e])
  | .ok v => (some v, [])

/-- The accumulator of the process_files batch loop (src/app.py
lines 166-177): accumulated rows, processed count, and log output. -/
structure BatchState where
  rows : List Row
  processed : Nat
  logs : List String
deriving DecidableEq

/-- One iteration of the batch loop (src/app.py lines 169-177): extract,
and when the result is truthy, flatten and append the rows and bump the
count; an exception inside the try block (flatten raising on a truthy
non-dict or a bad line_items value) is caught and logged, leaving rows
and count untouched. -/
def process_step (st : BatchState) (svc : Except String JValue) : BatchState :=
  let ex := extract_invoice_data svc
  let st1 : BatchState := { st with logs := st.logs ++ ex.2 }
  match ex.1 with
  | none => st1
  | some v =>
      if truthy v then
        match flatten_to_rows (some v) with
        | .ok rows => { st1 with rows := st1.rows ++ rows, processed := st1.processed + 1 }
        | .error e => { st1 with logs := st1.logs ++ ["Error processing: " ++ e] }
      else st1

/-- The batch loop of process_files (src/app.py lines 166-177), with each
file path replaced by the outcome of its extraction pipeline. -/
def process_batch (svcs : List (Except String JValue)) : BatchState :=
  svcs.foldl process_step ⟨[], 0, []⟩

/-- Truncating conversion of a rational to an integer, as Python's int()
applied to a float (truncation toward zero). -/
def pyInt (q : ℚ) : Int :=
  q.num.tdiv (q.den : Int)

/-- Python addition as used by the pandas object-column sum: numbers add,
booleans count as 0/1, strings concatenate, and any other combination
raises TypeError. -/
def pyAdd : JValue → JValue → Option JValue
  | .jnum a, .jnum b => some (.jnum (a + b))
  | .jnum a, .jbool b => some (.jnum (a + (if b then 1 else 0)))
  | .jbool a, .jnum b => some (.jnum ((if a then 1 else 0) + b))
  | .jbool a, .jbool b => some (.jnum ((if a then 1 else 0) + (if b then 1 else 0)))
  | .jstr a, .jstr b => some (.jstr (a ++ b))
  | _, _ => none

/-- Sum of one DataFrame column (pandas Series.sum): the empty column sums
to 0, a nonempty one left-folds addition over its values, failing when an
addition is untyped. -/
def pandasColSum : List JValue → Option JValue
  | [] => some (.jnum 0)
  | x :: rest => rest.foldlM pyAdd x

/-- Lowercasing of one ASCII character, as Python str.lower acts on the
characters appearing in filename extensions. -/
def pyLowerChar (c : Char) : Char :=
  if 'A' ≤ c ∧ c ≤ 'Z' then Char.ofNat (c.toNat + 32) else c

/-- The digits of a Python decimal integer literal: nonempty, all digits,
read in base 10. -/
def digitsToNat : List Char → Option Nat
  | [] => none
  | l => l.foldlM (fun acc c => if c.isDigit then some (acc * 10 + (c.toNat - 48)) else none) 0

/-- Python int() applied to a string: an optional sign followed by decimal
digits; anything else raises ValueError. -/
def pyStrToInt (s : String) : Option Int :=
  match s.toList with
  | '-' :: rest => (digitsToNat rest).map (fun n => -(n : Int))
  | '+' :: rest => (digitsToNat rest).map (fun n => (n : Int))
  | l => (digitsToNat l).map (fun n => (n : Int))

/-- Python int() applied to a cell value: truncation for a number, 0/1 for
a boolean, decimal-literal parsing for a string, an exception otherwise. -/
def pyIntOf : JValue → Option Int
  | .jnum q => some (pyInt q)
  | .jbool b => some (if b then 1 else 0)
  | .jstr s => pyStrToInt s
  | _ => none

/-- Python float() applied to a cell value: the number itself, 0/1 for a
boolean, integer-literal parsing for a string, an exception otherwise
(fractional string literals are not modelled). -/
def pyFloatOf : JValue → Option ℚ
  | .jnum q => some q
  | .jbool b => some (if b then 1 else 0)
  | .jstr s => (pyStrToInt s).map (fun n => (n : ℚ))
  | _ => none

/-- pandas Series.nunique of a column: the number of distinct values after
dropping nulls (dropna is the default). -/
def nunique (xs : List JValue) : Nat :=
  ((xs.filter (fun v => v != .jnull)).dedup).length

/-- The total_documents statistic (src/app.py line 185): nunique of the
Invoice_Number column when the DataFrame is nonempty, 0 otherwise. -/
def total_documents (rows : List Row) : Nat :=
  if rows = [] then 0 else nunique (rows.map Row.Invoice_Number)

/-- The total_line_items statistic (src/app.py line 186): the row count. -/
def total_line_items (rows : List Row) : Nat :=
  rows.length

/-- The total_quantity statistic (src/app.py line 187):
int(df[Quantity].sum()) when the DataFrame is nonempty, 0 otherwise;
none models the exception raised on untyped data. -/
def total_quantity (rows : List Row) : Option Int :=
  if rows = [] then some 0 else (pandasColSum (rows.map Row.Quantity)).bind pyIntOf

/-- The total_value statistic (src/app.py line 188):
float(df[Amount_Incl_VAT].sum()) when the DataFrame is nonempty, 0
otherwise. -/
def total_value (rows : List Row) : Option ℚ :=
  if rows = [] then some 0 else (pandasColSum (rows.map Row.Amount_Incl_VAT)).bind pyFloatOf

/-- The JSON body returned by the process route: the 400 error, or the
success payload with processed count, row count and the four stats. -/
inductive ProcessResponse where
  | err (msg : String)
  | okResp (processed total_rows : Nat)
      (docs : Nat) (line_items : Nat) (qty : Option Int) (value : Option ℚ)
deriving DecidableEq

/-- The process_files route (src/app.py lines 155-196) as a transformer of
the process-wide extracted_data: the request either has no file_paths key
(get defaults to the empty list) or carries a list of paths, each path
replaced by its extraction outcome.  An empty list returns the 400 error
before extracted_data is reassigned; otherwise the batch runs and its
rows replace the dataset wholesale. -/
def process_route (oldData : List Row) (file_paths : Option (List (Except String JValue))) :
    List Row × ProcessResponse :=
  let fps := file_paths.getD []
  if fps = [] then
    (oldData, .err "No files to process")
  else
    let st := process_batch fps
    (st.rows, .okResp st.processed st.rows.length
      (total_documents st.rows) (total_line_items st.rows)
      (total_quantity st.rows) (total_value st.rows))

/-- The data route (src/app.py lines 198-203): the stored dataset and its
length. -/
def get_data (dataset : List Row) : List Row × Nat :=
  (dataset, dataset.length)

/-- One uploaded file as the upload loop sees it: the submitted filename
and size in bytes.  A FileStorage object is falsy exactly when its
filename is empty, and allowed_file is false on an empty filename anyway,
so the loop's test reduces to allowed_file. -/
structure UploadFile where
  filename : String
  size : Nat
deriving DecidableEq

/-- The characters after the last dot of a name, when a dot is present:
what filename.rsplit with separator dot and one split yields at index 1,
with none standing for a dotless name. -/
def afterLastDot : List Char → Option (List Char)
  | [] => none
  | c :: rest =>
      match afterLastDot rest with
      | some s => some s
      | none => if c = '.' then some rest else none

/-- allowed_file (src/app.py lines 84-85): the name contains a dot and the
lowercased text after the last dot is one of the four allowed
extensions. -/
def allowed_file (filename : String) : Bool :=
  match afterLastDot filename.toList with
  | some ext =>
      ["png".toList, "jpg".toList, "jpeg".toList, "pdf".toList].contains (ext.map pyLowerChar)
  | none => false

/-- The upload loop of upload_files (src/app.py lines 135-147): each file
passing the extension test is stored and appended to the returned list;
the others are skipped silently.  No size test appears in the loop. -/
def upload_files (files : List UploadFile) : List UploadFile :=
  files.filter (fun f => allowed_file f.filename)

/-- The row built from the header fields of one record together with one
line-item dict: what flatten_to_rows emits per item. -/
def hdrRow (kvs : List (String × JValue)) : List (String × JValue) → Row :=
  mkRow (pyGet kvs "invoice_number" (.jstr "")) (pyGet kvs "waybill_number" (.jstr ""))
    (pyGet kvs "customer_name" (.jstr "")) (pyGet kvs "order_number" (.jstr ""))
    (pyGet kvs "invoice_date" (.jstr ""))

/-- Whether one file's extraction outcome makes the batch loop increment
the processed counter: extraction succeeded, the decoded value is truthy,
and flattening it raises no exception. -/
def countsProcessed (svc : Except String JValue) : Bool :=
  match (extract_invoice_data svc).1 with
  | some v =>
      truthy v &&
        (match flatten_to_rows (some v) with
         | .ok _ => true
         | .error _ => false)
  | none => false

/-! ## Helper lemmas -/

lemma pyGet_lookup_none {kvs : List (String × JValue)} {k : String} {d : JValue}
    (h : kvs.lookup k = none) : pyGet kvs k d = d := by
  simp [pyGet, h]

lemma pyGet_lookup_some {kvs : List (String × JValue)} {k : String} {d v : JValue}
    (h : kvs.lookup k = some v) : pyGet kvs k d = v := by
  simp [pyGet, h]

lemma rowsOfItems_map (a b c d e : JValue) (iks : List (List (String × JValue))) :
    rowsOfItems a b c d e (iks.map .jobj) = .ok (iks.map (mkRow a b c d e)) := by
  induction iks with
  | nil => rfl
  | cons ik rest ih => simp [List.map, rowsOfItems, itemToRow, ih]

/-- Core flattening lemma: when the line_items entry of a record is a list
of dicts, flatten_to_rows returns exactly one row per item, in order,
built from the header fields. -/
lemma flatten_eq_map (kvs : List (String × JValue)) (iks : List (List (String × JValue)))
    (h : pyGet kvs "line_items" (.jarr []) = .jarr (iks.map .jobj)) :
    flatten_to_rows (some (.jobj kvs)) = .ok (iks.map (hdrRow kvs)) := by
  by_cases hk : kvs = []
  · subst hk
    have h0 : pyGet ([] : List (String × JValue)) "line_items" (.jarr []) = .jarr [] := rfl
    rw [h0] at h
    have : iks.map JValue.jobj = [] := by
      cases hi : iks.map JValue.jobj with
      | nil => rfl
      | cons x t => rw [hi] at h; exact absurd h (by simp)
    have hiks : iks = [] := List.map_eq_nil_iff.mp this
    subst hiks
    rfl
  · simp only [flatten_to_rows, truthy, h, iterItems]
    rw [if_pos (by simp [hk])]
    exact rowsOfItems_map _ _ _ _ _ iks

/-! ## Claims -/

/-- C1: for every invoice record whose line_items entry holds N line-item
dicts, flatten_to_rows produces exactly N flat rows; each row carries the
five header-field values read from the record, and the rows appear in the
same order as the line items (zero line items yields zero rows, the header
is discarded). -/
theorem C1_flatten_rows (kvs : List (String × JValue)) (iks : List (List (String × JValue)))
    (h : pyGet kvs "line_items" (.jarr []) = .jarr (iks.map .jobj)) :
    flatten_to_rows (some (.jobj kvs)) = .ok (iks.map (hdrRow kvs)) ∧
    (iks.map (hdrRow kvs)).length = iks.length ∧
    ∀ r ∈ iks.map (hdrRow kvs),
      r.Invoice_Number = pyGet kvs "invoice_number" (.jstr "") ∧
      r.Waybill_Number = pyGet kvs "waybill_number" (.jstr "") ∧
      r.Customer_Name = pyGet kvs "customer_name" (.jstr "") ∧
      r.Order_Number = pyGet kvs "order_number" (.jstr "") ∧
      r.Invoice_Date = pyGet kvs "invoice_date" (.jstr "") := by
  refine ⟨flatten_eq_map kvs iks h, List.length_map _ _, ?_⟩
  intro r hr
  rcases List.mem_map.mp hr with ⟨ik, _, rfl⟩
  exact ⟨rfl, rfl, rfl, rfl, rfl⟩

/-- Witness for C1 at a concrete two-item record. -/
theorem C1_flatten_rows_witness :
    flatten_to_rows (some (.jobj [("invoice_number", .jstr "I1"),
        ("line_items", .jarr [.jobj [("line_no", .jnum 1)], .jobj [("line_no", .jnum 2)]])])) =
      .ok ([[("line_no", .jnum 1)], [("line_no", .jnum 2)]].map
        (hdrRow [("invoice_number", .jstr "I1"),
          ("line_items", .jarr [.jobj [("line_no", .jnum 1)], .jobj [("line_no", .jnum 2)]])])) :=
  (C1_flatten_rows
    [("invoice_number", .jstr "I1"),
      ("line_items", .jarr [.jobj [("line_no", .jnum 1)], .jobj [("line_no", .jnum 2)]])]
    [[("line_no", .jnum 1)], [("line_no", .jnum 2)]] (by decide)).1

/-- C2: flatten_to_rows returns the empty row list for an absent record,
for a record without the line_items key, and for a record whose line_items
list is empty; none of these is an error. -/
theorem C2_flatten_empty (kvs kvs2 : List (String × JValue))
    (h1 : kvs.lookup "line_items" = none)
    (h2 : kvs2.lookup "line_items" = some (.jarr [])) :
    flatten_to_rows none = .ok [] ∧
    flatten_to_rows (some (.jobj kvs)) = .ok [] ∧
    flatten_to_rows (some (.jobj kvs2)) = .ok [] := by
  refine ⟨rfl, ?_, ?_⟩
  · have := flatten_eq_map kvs [] (by rw [pyGet_lookup_none h1]; rfl)
    simpa using this
  · have := flatten_eq_map kvs2 [] (by rw [pyGet_lookup_some h2]; rfl)
    simpa using this

/-- Witness for C2 at concrete records. -/
theorem C2_flatten_empty_witness :
    flatten_to_rows none = .ok [] ∧
    flatten_to_rows (some (.jobj [("invoice_number", .jstr "I")])) = .ok [] ∧
    flatten_to_rows (some (.jobj [("line_items", .jarr [])])) = .ok [] :=
  C2_flatten_empty [("invoice_number", .jstr "I")] [("line_items", .jarr [])]
    (by decide) (by decide)

lemma process_step_decomp (st : BatchState) (svc : Except String JValue) :
    process_step st svc =
      ⟨st.rows ++ (process_step ⟨[], 0, []⟩ svc).rows,
       st.processed + (process_step ⟨[], 0, []⟩ svc).processed,
       st.logs ++ (process_step ⟨[], 0, []⟩ svc).logs⟩ := by
  cases svc with
  | error e => simp [process_step, extract_invoice_data]
  | ok v =>
      by_cases ht : truthy v
      · cases hf : flatten_to_rows (some v) with
        | ok rows => simp [process_step, extract_invoice_data, ht, hf]
        | error e => simp [process_step, extract_invoice_data, ht, hf]
      · simp [process_step, extract_invoice_data, ht]

lemma process_batch_shift (svcs : List (Except String JValue)) (st : BatchState) :
    svcs.foldl process_step st =
      ⟨st.rows ++ (process_batch svcs).rows,
       st.processed + (process_batch svcs).processed,
       st.logs ++ (process_batch svcs).logs⟩ := by
  induction svcs generalizing st with
  | nil => simp [process_batch]
  | cons x xs ih =>
      rw [List.foldl_cons, ih (process_step st x), process_step_decomp st x]
      have hx : process_batch (x :: xs) = xs.foldl process_step (process_step ⟨[], 0, []⟩ x) := rfl
      rw [hx, ih (process_step ⟨[], 0, []⟩ x)]
      simp [List.append_assoc, Nat.add_assoc]

lemma process_batch_append (a b : List (Except String JValue)) :
    process_batch (a ++ b) =
      ⟨(process_batch a).rows ++ (process_batch b).rows,
       (process_batch a).processed + (process_batch b).processed,
       (process_batch a).logs ++ (process_batch b).logs⟩ := by
  rw [process_batch, List.foldl_append]
  exact process_batch_shift b (process_batch a)

lemma process_step_processed_init (svc : Except String JValue) :
    (process_step ⟨[], 0, []⟩ svc).processed = if countsProcessed svc then 1 else 0 := by
  cases svc with
  | error e => simp [process_step, extract_invoice_data, countsProcessed]
  | ok v =>
      by_cases ht : truthy v
      · cases hf : flatten_to_rows (some v) with
        | ok rows => simp [process_step, extract_invoice_data, countsProcessed, ht, hf]
        | error e => simp [process_step, extract_invoice_data, countsProcessed, ht, hf]
      · simp [process_step, extract_invoice_data, countsProcessed, ht]

/-- C3 counterexample: one file whose extraction yields the parse-able
record consisting of the empty JSON object (zero line items, no line_items
key); the claim counts it as processed, the code does not, because the
empty dict is falsy in Python. -/
theorem C3_counterexample :
    (process_batch [.ok (.jobj [])]).processed = 0 ∧
    (process_batch [.ok (.jobj [])]).processed ≠ 1 := by
  decide

/-- C3 amended: processedCount equals the number of files whose extraction
yielded a truthy record that flattens without error; a record with zero
line items still counts as long as the record itself is a non-empty dict
(for example one carrying only header fields and no line_items key), but
a parse-able empty record does not count. -/
theorem C3_amended (svcs : List (Except String JValue)) (kvs : List (String × JValue))
    (h1 : kvs ≠ []) (h2 : kvs.lookup "line_items" = none) :
    (process_batch svcs).processed = svcs.countP countsProcessed ∧
    countsProcessed (.ok (.jobj kvs)) = true := by
  constructor
  · induction svcs with
    | nil => simp [process_batch]
    | cons x xs ih =>
        have hcons : process_batch (x :: xs) = xs.foldl process_step (process_step ⟨[], 0, []⟩ x) := rfl
        rw [hcons, process_batch_shift xs (process_step ⟨[], 0, []⟩ x)]
        simp only [List.countP_cons, process_step_processed_init, ih]
        omega
  · have hflat : flatten_to_rows (some (.jobj kvs)) = .ok [] := by
      simpa using flatten_eq_map kvs [] (by rw [pyGet_lookup_none h2]; rfl)
    simp [countsProcessed, extract_invoice_data, truthy, h1, hflat]

/-- Witness for C3 amended at a concrete header-only record. -/
theorem C3_amended_witness :
    (process_batch [.ok (.jobj [("invoice_number", .jstr "I")])]).processed =
      ([.ok (.jobj [("invoice_number", .jstr "I")])] : List (Except String JValue)).countP
        countsProcessed ∧
    countsProcessed (.ok (.jobj [("invoice_number", .jstr "I")])) = true :=
  C3_amended [.ok (.jobj [("invoice_number", .jstr "I")])] [("invoice_number", .jstr "I")]
    (by decide) (by decide)

/-- C4: an extraction failure in the middle of a batch contributes no rows
and no processed count, is logged, and the remaining files are processed
exactly as they would be on their own, in order; the batch function is
total, so no exception escapes it. -/
theorem C4_failure_skipped (pre post : List (Except String JValue)) (e : String) :
    process_batch (pre ++ .error e :: post) =
      ⟨(process_batch pre).rows ++ (process_batch post).rows,
       (process_batch pre).processed + (process_batch post).processed,
       (process_batch pre).logs ++ ("Error: " ++ e) :: (process_batch post).logs⟩ := by
  rw [process_batch_append]
  have h1 : process_batch (.error e :: post) =
      ⟨(process_batch post).rows, (process_batch post).processed,
        ("Error: " ++ e) :: (process_batch post).logs⟩ := by
    have hc : process_batch (.error e :: post) =
        post.foldl process_step (process_step ⟨[], 0, []⟩ (.error e)) := rfl
    rw [hc, process_batch_shift post (process_step ⟨[], 0, []⟩ (.error e))]
    simp [process_step, extract_invoice_data]
  rw [h1]

lemma foldlM_pyAdd_num (l : List ℚ) :
    ∀ a : ℚ, List.foldlM pyAdd (JValue.jnum a) (l.map .jnum) = some (.jnum (a + l.sum)) := by
  induction l with
  | nil => intro a; simp
  | cons x xt ih =>
      intro a
      rw [List.map_cons, List.foldlM_cons]
      simp [pyAdd, ih, add_assoc]

/-- C5: total_documents equals the number of distinct invoice-number
values appearing among the rows (null entries aside, which pandas nunique
drops): rows from records sharing one invoice number count it once, and
distinct invoice numbers are counted separately. -/
theorem C5_total_documents (rows : List Row)
    (h : JValue.jnull ∉ rows.map Row.Invoice_Number) :
    total_documents rows = ((rows.map Row.Invoice_Number).dedup).length := by
  by_cases hr : rows = []
  · subst hr; simp [total_documents]
  · simp only [total_documents, if_neg hr, nunique]
    congr 2
    apply List.filter_eq_self.mpr
    intro a ha
    have : a ≠ JValue.jnull := fun he => h (he ▸ ha)
    simpa [bne] using this

/-- Witness for C5: two rows sharing one invoice number give 1; two rows
with distinct invoice numbers give 2. -/
theorem C5_total_documents_witness :
    total_documents
        [mkRow (.jstr "A") (.jstr "") (.jstr "") (.jstr "") (.jstr "") [("line_no", .jnum 1)],
         mkRow (.jstr "A") (.jstr "") (.jstr "") (.jstr "") (.jstr "") [("line_no", .jnum 2)]] = 1 ∧
    total_documents
        [mkRow (.jstr "A") (.jstr "") (.jstr "") (.jstr "") (.jstr "") [],
         mkRow (.jstr "B") (.jstr "") (.jstr "") (.jstr "") (.jstr "") []] = 2 :=
  ⟨(C5_total_documents _ (by decide)).trans (by decide),
   (C5_total_documents _ (by decide)).trans (by decide)⟩

/-- C6 counterexample: a row whose Quantity cell is the non-numeric string
"abc"; the claim says it is treated as 0, but the statistics computation
raises instead (modelled as none), so total_quantity is neither the sum 0
nor any integer. -/
theorem C6_counterexample :
    (mkRow (.jstr "A") (.jstr "") (.jstr "") (.jstr "") (.jstr "")
        [("quantity", .jstr "abc")]).Quantity = .jstr "abc" ∧
    total_quantity
        [mkRow (.jstr "A") (.jstr "") (.jstr "") (.jstr "") (.jstr "")
          [("quantity", .jstr "abc")]] = none ∧
    total_quantity
        [mkRow (.jstr "A") (.jstr "") (.jstr "") (.jstr "") (.jstr "")
          [("quantity", .jstr "abc")]] ≠ some 0 := by
  decide

/-- C6 amended: whenever every Quantity cell is numeric, total_quantity is
the integer truncation of the sum of the column; a missing quantity never
reaches the statistics because flatten_to_rows already defaults it to the
number 0, but a non-numeric quantity value makes the computation fail
rather than count as 0. -/
theorem C6_amended (rows : List Row) (qs : List ℚ)
    (h : rows.map Row.Quantity = qs.map JValue.jnum) :
    total_quantity rows = some (pyInt qs.sum) := by
  by_cases hr : rows = []
  · subst hr
    have hq : qs = [] := by
      cases qs with
      | nil => rfl
      | cons q qt => exact absurd h.symm (by simp)
    subst hq
    simp [total_quantity, pyInt]
  · simp only [total_quantity, if_neg hr, h]
    cases qs with
    | nil =>
        have : rows.map Row.Quantity = [] := by simpa using h
        exact absurd (List.map_eq_nil_iff.mp this) hr
    | cons q qt =>
        rw [List.map_cons]
        show (List.foldlM pyAdd (JValue.jnum q) (qt.map .jnum)).bind pyIntOf = _
        rw [foldlM_pyAdd_num qt q]
        simp [pyIntOf, List.sum_cons]

/-- Witness for C6 amended: quantities 2 and 3 sum to the integer 5. -/
theorem C6_amended_witness :
    total_quantity
        [mkRow (.jstr "A") (.jstr "") (.jstr "") (.jstr "") (.jstr "") [("quantity", .jnum 2)],
         mkRow (.jstr "A") (.jstr "") (.jstr "") (.jstr "") (.jstr "") [("quantity", .jnum 3)]] =
      some (pyInt ([(2 : ℚ), 3].sum)) :=
  C6_amended _ [2, 3] (by decide)

/-- C7 counterexample: flattening a record with one entirely empty line
item produces a row whose Line_No is the empty string, not the number 0,
contradicting the claimed integer default for the line number. -/
theorem C7_counterexample :
    flatten_to_rows (some (.jobj [("line_items", .jarr [.jobj []])])) =
      .ok [mkRow (.jstr "") (.jstr "") (.jstr "") (.jstr "") (.jstr "") []] ∧
    (mkRow (.jstr "") (.jstr "") (.jstr "") (.jstr "") (.jstr "") []).Line_No = .jstr "" ∧
    (mkRow (.jstr "") (.jstr "") (.jstr "") (.jstr "") (.jstr "") []).Line_No ≠ .jnum 0 := by
  decide

/-- C7 amended: in every row flatten produces, missing line-item fields
default to the empty string for the string fields and to 0 for the six
numeric value fields, but the line number also defaults to the empty
string, not to 0 as its declared integer type would suggest. -/
theorem C7_defaults (kvs ikvs : List (String × JValue))
    (h1 : ikvs.lookup "line_no" = none) (h2 : ikvs.lookup "item_code" = none)
    (h3 : ikvs.lookup "item_description" = none) (h4 : ikvs.lookup "quantity" = none)
    (h5 : ikvs.lookup "uom" = none) (h6 : ikvs.lookup "unit_price" = none)
    (h7 : ikvs.lookup "total_amount" = none) (h8 : ikvs.lookup "discount_amount" = none)
    (h9 : ikvs.lookup "vat" = none) (h10 : ikvs.lookup "amount_incl_vat" = none)
    (h11 : ikvs.lookup "batch_no" = none) (h12 : ikvs.lookup "expiry_date" = none) :
    flatten_to_rows (some (.jobj (("line_items", .jarr [.jobj ikvs]) :: kvs))) =
      .ok [hdrRow (("line_items", .jarr [.jobj ikvs]) :: kvs) ikvs] ∧
    (hdrRow (("line_items", .jarr [.jobj ikvs]) :: kvs) ikvs).Line_No = .jstr "" ∧
    (hdrRow (("line_items", .jarr [.jobj ikvs]) :: kvs) ikvs).Item_Code = .jstr "" ∧
    (hdrRow (("line_items", .jarr [.jobj ikvs]) :: kvs) ikvs).Item_Description = .jstr "" ∧
    (hdrRow (("line_items", .jarr [.jobj ikvs]) :: kvs) ikvs).Quantity = .jnum 0 ∧
    (hdrRow (("line_items", .jarr [.jobj ikvs]) :: kvs) ikvs).UOM = .jstr "" ∧
    (hdrRow (("line_items", .jarr [.jobj ikvs]) :: kvs) ikvs).Unit_Price = .jnum 0 ∧
    (hdrRow (("line_items", .jarr [.jobj ikvs]) :: kvs) ikvs).Total_Amount = .jnum 0 ∧
    (hdrRow (("line_items", .jarr [.jobj ikvs]) :: kvs) ikvs).Discount_Amount = .jnum 0 ∧
    (hdrRow (("line_items", .jarr [.jobj ikvs]) :: kvs) ikvs).VAT = .jnum 0 ∧
    (hdrRow (("line_items", .jarr [.jobj ikvs]) :: kvs) ikvs).Amount_Incl_VAT = .jnum 0 ∧
    (hdrRow (("line_items", .jarr [.jobj ikvs]) :: kvs) ikvs).Batch_No = .jstr "" ∧
    (hdrRow (("line_items", .jarr [.jobj ikvs]) :: kvs) ikvs).Expiry_Date = .jstr "" := by
  refine ⟨?_, ?_, ?_, ?_, ?_, ?_, ?_, ?_, ?_, ?_, ?_, ?_, ?_⟩
  · apply flatten_eq_map _ [ikvs]
    simp [pyGet, List.lookup]
  all_goals simp [hdrRow, mkRow, pyGet, h1, h2, h3, h4, h5, h6, h7, h8, h9, h10, h11, h12]

/-- Witness for C7 amended at the empty line-item dict under an empty
header. -/
theorem C7_defaults_witness :
    flatten_to_rows (some (.jobj [("line_items", .jarr [.jobj []])])) =
      .ok [hdrRow [("line_items", .jarr [.jobj []])] []] ∧
    (hdrRow [("line_items", .jarr [.jobj []])] []).Line_No = .jstr "" ∧
    (hdrRow [("line_items", .jarr [.jobj []])] []).Item_Code = .jstr "" ∧
    (hdrRow [("line_items", .jarr [.jobj []])] []).Item_Description = .jstr "" ∧
    (hdrRow [("line_items", .jarr [.jobj []])] []).Quantity = .jnum 0 ∧
    (hdrRow [("line_items", .jarr [.jobj []])] []).UOM = .jstr "" ∧
    (hdrRow [("line_items", .jarr [.jobj []])] []).Unit_Price = .jnum 0 ∧
    (hdrRow [("line_items", .jarr [.jobj []])] []).Total_Amount = .jnum 0 ∧
    (hdrRow [("line_items", .jarr [.jobj []])] []).Discount_Amount = .jnum 0 ∧
    (hdrRow [("line_items", .jarr [.jobj []])] []).VAT = .jnum 0 ∧
    (hdrRow [("line_items", .jarr [.jobj []])] []).Amount_Incl_VAT = .jnum 0 ∧
    (hdrRow [("line_items", .jarr [.jobj []])] []).Batch_No = .jstr "" ∧
    (hdrRow [("line_items", .jarr [.jobj []])] []).Expiry_Date = .jstr "" :=
  C7_defaults [] [] rfl rfl rfl rfl rfl rfl rfl rfl rfl rfl rfl rfl

/-- C8: on the empty row set none of the four statistics fails and all
are zero. -/
theorem C8_empty_stats :
    total_documents [] = 0 ∧ total_line_items [] = 0 ∧
    total_quantity [] = some 0 ∧ total_value [] = some 0 := by
  decide

/-- C9 counterexample: a 17 MiB file with an allowed extension is returned
by the upload loop, which checks only the extension; the claimed size
exclusion does not happen there. -/
theorem C9_counterexample :
    upload_files [⟨"a.png", 17 * 1024 * 1024⟩] = [⟨"a.png", 17 * 1024 * 1024⟩] ∧
    (17 * 1024 * 1024 : Nat) > 16 * 1024 * 1024 := by
  constructor
  · decide
  · decide

/-- C9 amended: the upload loop silently excludes exactly the files whose
name fails the extension test, without aborting; a file appears in the
returned list if and only if it was submitted and its extension is
allowed, with no per-file size check in the handler (the 16 MiB limit is
a request-level framework setting that rejects the whole request). -/
theorem C9_extension_filter (files : List UploadFile) (f : UploadFile) :
    (f ∈ upload_files files ↔ f ∈ files ∧ allowed_file f.filename = true) ∧
    allowed_file "doc.pdf" = true ∧ allowed_file "doc.txt" = false := by
  refine ⟨?_, by decide, by decide⟩
  simp [upload_files, List.mem_filter]

/-- C10: a process request with a missing or empty file_paths list returns
the request-level error and leaves the stored dataset unchanged, so the
previous rows stay readable through the data route. -/
theorem C10_empty_request (oldData : List Row) (fps : Option (List (Except String JValue)))
    (h : fps = none ∨ fps = some []) :
    process_route oldData fps = (oldData, .err "No files to process") ∧
    get_data (process_route oldData fps).1 = (oldData, oldData.length) := by
  rcases h with h | h <;> subst h <;> simp [process_route, get_data]

/-- Witness for C10 with a nonempty previous dataset and an absent
file_paths key. -/
theorem C10_empty_request_witness :
    process_route [mkRow (.jstr "A") (.jstr "") (.jstr "") (.jstr "") (.jstr "") []] none =
      ([mkRow (.jstr "A") (.jstr "") (.jstr "") (.jstr "") (.jstr "") []],
        .err "No files to process") ∧
    get_data (process_route [mkRow (.jstr "A") (.jstr "") (.jstr "") (.jstr "") (.jstr "") []]
        none).1 =
      ([mkRow (.jstr "A") (.jstr "") (.jstr "") (.jstr "") (.jstr "") []], 1) :=
  C10_empty_request [mkRow (.jstr "A") (.jstr "") (.jstr "") (.jstr "") (.jstr "") []] none
    (Or.inl rfl)
